import Mathlib

/-!
Verification of `part1_script.py` (World Bank basic-sanitation chart script).

We shallowly embed the script's data model and operations:
* a pandas DataFrame becomes `DF` (a row index of labels plus labelled
  columns of optional rational cells; `none` models NaN),
* `preprocess_df` becomes the composition of the five cleaning steps,
* `create_chart` becomes the pure computation of the dropdown buttons
  (each a label paired with a visibility vector), and
* `main`'s post-fetch logic becomes `mainResult`, returning `Except` to
  model unhandled Python exceptions.
-/

/-- Plotly per-trace visibility states: `True`, `'legendonly'`, `False`. -/
inductive Vis where
  | shown
  | legendonly
  | hidden
deriving DecidableEq, Repr

/-- A pandas DataFrame: a row index of labels and a list of labelled
columns; each column's cell list is aligned with the index.  A cell of
`none` models NaN. -/
structure DF where
  index : List String
  cols : List (String × List (Option ℚ))
deriving DecidableEq, Repr

/-- The column labels of a frame, in order (`df.columns`). -/
def DF.colNames (df : DF) : List String := df.cols.map Prod.fst

/-- `df.dropna(axis=1, how='all')`: keep exactly the columns having at
least one non-null cell. -/
def dropColsAllNull (df : DF) : DF :=
  ⟨df.index, df.cols.filter (fun c => c.2.any Option.isSome)⟩

/-- `df.dropna(subset=cols_to_check, how='all')` where the subset is all
remaining columns: keep exactly the row positions at which some column
has a non-null cell. -/
def dropRowsAllNull (df : DF) : DF :=
  let keep := (List.range df.index.length).filter
    (fun i => df.cols.any (fun c => (c.2.getD i none).isSome))
  ⟨keep.map (fun i => df.index.getD i ""),
   df.cols.map (fun c => (c.1, keep.map (fun i => c.2.getD i none)))⟩

/-- Remove every (leftmost, non-overlapping) occurrence of `"YR"` from a
character list; this is `re.sub("YR", "", s)`. -/
def removeYRAux : List Char → List Char
  | [] => []
  | 'Y' :: 'R' :: rest => removeYRAux rest
  | c :: rest => c :: removeYRAux rest

/-- `s.replace("YR", "", regex=True)` applied to one label. -/
def removeYR (s : String) : String := ⟨removeYRAux s.data⟩

/-- `df.columns = df.columns.str.replace(...)`: rename every column label. -/
def renameCols (f : String → String) (df : DF) : DF :=
  ⟨df.index, df.cols.map (fun c => (f c.1, c.2))⟩

/-- Round half to even to an integer, as numpy does. -/
def rhalfEven (q : ℚ) : ℤ :=
  if q - ⌊q⌋ < 1/2 then ⌊q⌋
  else if 1/2 < q - ⌊q⌋ then ⌊q⌋ + 1
  else if ⌊q⌋ % 2 = 0 then ⌊q⌋ else ⌊q⌋ + 1

/-- `df.round(1)` on one value: round to one decimal place. -/
def round1 (q : ℚ) : ℚ := (rhalfEven (10 * q) : ℚ) / 10

/-- `df.round(1)` on the whole frame (NaN cells stay NaN). -/
def roundCells (df : DF) : DF :=
  ⟨df.index, df.cols.map (fun c => (c.1, c.2.map (Option.map round1)))⟩

/-- `df.T`: column labels become the row index and each former row
becomes a column. -/
def DF.transpose (df : DF) : DF :=
  ⟨df.cols.map Prod.fst,
   (List.range df.index.length).map
     (fun i => (df.index.getD i "", df.cols.map (fun c => c.2.getD i none)))⟩

/-- `preprocess_df`: drop all-null columns, then all-null rows, then
remove `"YR"` from column labels, then round to one decimal place, then
transpose. -/
def preprocess_df (df : DF) : DF :=
  let df1 := dropColsAllNull df
  let df2 := dropRowsAllNull df1
  let df3 := renameCols removeYR df2
  let df4 := roundCells df3
  DF.transpose df4

/-- The model of the plotly figure state that the script builds: the x
axis labels, one series per column, the dropdown buttons (label and
visibility vector), and the output path of `write_html`. -/
structure Chart where
  xIndex : List String
  seriesCols : List String
  buttons : List (String × List Vis)
  outFile : String
deriving DecidableEq, Repr

/-- The visibility vector that `create_chart` builds for one category:
for each column, members get `True` (always for `"Country_Avg_line"`,
and for every category other than `"Countries"`), members of
`"Countries"` other than the average get `'legendonly'`, and
non-members get `False`. -/
def visibilityList (category_name : String) (opts : List String)
    (colNames : List String) : List Vis :=
  colNames.map (fun col =>
    if col ∈ opts then
      if col = "Country_Avg_line" then Vis.shown
      else if category_name = "Countries" then Vis.legendonly
      else Vis.shown
    else Vis.hidden)

/-- `create_chart`: build one button per category, then prepend the
`'All'` button whose vector is `'legendonly'` at every column. -/
def create_chart (filter_options : List (String × List String)) (df : DF) :
    Chart :=
  let category_buttons := filter_options.map
    (fun p => (p.1, visibilityList p.1 p.2 df.colNames))
  let buttons :=
    ("All", df.colNames.map (fun _ => Vis.legendonly)) :: category_buttons
  ⟨df.index, df.colNames, buttons, "visual.html"⟩

/-- Insert a label into an already sorted list, keeping ascending order
(stable, as Python's `sorted`). -/
def insertSorted (a : String) : List String → List String
  | [] => [a]
  | b :: bs => if b < a then b :: insertSorted a bs else a :: b :: bs

/-- Python's `sorted` on a list of labels (ascending insertion sort). -/
def sortStr (l : List String) : List String := l.foldr insertSorted []

/-- `sorted(sanit_df.columns[0:world_index].tolist())`: the labels
strictly before the first column labelled `"World"`, sorted. -/
def mainCountries (df : DF) : List String :=
  sortStr (df.colNames.take (df.colNames.findIdx (· = "World")))

/-- `df[n]`: the cells of the first column labelled `n` (all-NaN if the
label is absent; `mainResult` only uses it for present labels). -/
def lookupCol (df : DF) (n : String) : List (Option ℚ) :=
  match df.cols.find? (fun c => c.1 = n) with
  | some c => c.2
  | none => df.index.map (fun _ => none)

/-- `df[names]`: select the named columns, in the order given. -/
def selectCols (df : DF) (names : List String) : DF :=
  ⟨df.index, names.map (fun n => (n, lookupCol df n))⟩

/-- pandas `mean` over one row's cells: the mean of the non-null cells,
NaN when all cells are null (skipna). -/
def rowMean (vals : List (Option ℚ)) : Option ℚ :=
  let xs := vals.filterMap id
  if xs.length = 0 then none else some (xs.sum / xs.length)

/-- `df.mean(axis=1)`: the row-wise means of a frame. -/
def rowMeans (df : DF) : List (Option ℚ) :=
  (List.range df.index.length).map
    (fun i => rowMean (df.cols.map (fun c => c.2.getD i none)))

/-- `sanit_df[countries].mean(axis=1)`: the cells of the new
`"Country_Avg_line"` column. -/
def avgCells (df : DF) : List (Option ℚ) :=
  rowMeans (selectCols df (mainCountries df))

/-- `df[n] = cells`: overwrite the column labelled `n` if present,
otherwise append it at the end. -/
def setCol (df : DF) (n : String) (cells : List (Option ℚ)) : DF :=
  if df.cols.any (fun c => c.1 = n) then
    ⟨df.index, df.cols.map (fun c => if c.1 = n then (n, cells) else c)⟩
  else
    ⟨df.index, df.cols ++ [(n, cells)]⟩

/-- The four income-group labels hard-coded in `main`. -/
def income_grps : List String :=
  ["Low income", "Lower middle income", "Upper middle income", "High income"]

/-- The seven region labels hard-coded in `main`. -/
def region_grps : List String :=
  ["East Asia & Pacific", "Europe & Central Asia", "Latin America & Caribbean",
   "Middle East & North Africa", "North America", "South Asia",
   "Sub-Saharan Africa"]

/-- `main`'s filter-options dictionary, in insertion order. -/
def mainFilterOptions (countries : List String) :
    List (String × List String) :=
  [("Countries", countries), ("Income Groups", income_grps),
   ("Regions", region_grps)]

/-- The column order `countries + region_grps + income_grps` that `main`
selects for the final frame ("countries" starting with the average). -/
def mainAllCols (df : DF) : List String :=
  ("Country_Avg_line" :: mainCountries df) ++ region_grps ++ income_grps

/-- The final frame `main` passes to `create_chart`: the reshaped frame
with the average column added, restricted and reordered to
`mainAllCols`. -/
def finalTable (df : DF) : DF :=
  selectCols (setCol df "Country_Avg_line" (avgCells df)) (mainAllCols df)

/-- The two ways `main`'s post-fetch code can raise: `list.index` when
`"World"` is absent (`ValueError`), and column selection when a
requested label is absent (`KeyError`). -/
inductive MainErr where
  | valueError
  | keyError
deriving DecidableEq, Repr

/-- `main` after the fetch: preprocess, locate `"World"`, derive the
average column, select the final columns, and build the chart.  An
unhandled Python exception is modelled as `Except.error`, in which case
no chart (hence no `visual.html`) is produced. -/
def mainResult (raw : DF) : Except MainErr Chart :=
  let reshaped := preprocess_df raw
  match reshaped.colNames.findIdx? (· = "World") with
  | none => .error .valueError
  | some _ =>
    let countries := "Country_Avg_line" :: mainCountries reshaped
    let df2 := setCol reshaped "Country_Avg_line" (avgCells reshaped)
    if (mainAllCols reshaped).all (fun n => df2.cols.any (fun c => c.1 = n)) then
      .ok (create_chart (mainFilterOptions countries) (finalTable reshaped))
    else
      .error .keyError

/-- The claimed `preprocess_df` pipeline with the renaming step read
literally as stripping the token `"YR"` only when it is a leading
token of the label (second definition, following the claim's words, for
comparison with `preprocess_df`). -/
def stripLeadingYR (s : String) : String :=
  match s.data with
  | 'Y' :: 'R' :: rest => ⟨rest⟩
  | _ => s

/-- The five-step pipeline exactly as the claim words it, with
`stripLeadingYR` as the renaming step. -/
def preprocessC5Claim (df : DF) : DF :=
  DF.transpose (roundCells (renameCols stripLeadingYR
    (dropRowsAllNull (dropColsAllNull df))))

/-- The five-step pipeline with the renaming step amended to remove
every occurrence of the token `"YR"` from each column label. -/
def preprocessC5Amended (df : DF) : DF :=
  DF.transpose (roundCells (renameCols removeYR
    (dropRowsAllNull (dropColsAllNull df))))

/-- Round half to even fixes integers. -/
theorem rhalfEven_intCast (k : ℤ) : rhalfEven (k : ℚ) = k := by
  unfold rhalfEven
  rw [Int.floor_intCast]
  have h : ((k : ℚ) - (k : ℤ)) < 1/2 := by
    norm_num
  rw [if_pos h]

/-- The entry of a visibility vector at an in-range position is the
four-way case split of `create_chart`'s inner loop. -/
theorem visibilityList_getD (name : String) (opts cols : List String)
    (i : Nat) (hi : i < cols.length) :
    (visibilityList name opts cols).getD i Vis.hidden =
      (if cols.getD i "" ∈ opts then
        if cols.getD i "" = "Country_Avg_line" then Vis.shown
        else if name = "Countries" then Vis.legendonly else Vis.shown
      else Vis.hidden) := by
  have hlen : i < (visibilityList name opts cols).length := by
    simpa [visibilityList] using hi
  rw [List.getD_eq_getElem _ _ hlen, List.getD_eq_getElem _ _ hi]
  simp [visibilityList]

-- Concrete illustration of the renaming divergence: on a label with an
-- interior "YR", the code's replace-all differs from a leading strip.
example : (preprocess_df ⟨["r1"], [("AYRB", [some 1])]⟩).index = ["AB"] := by decide
example : (preprocessC5Claim ⟨["r1"], [("AYRB", [some 1])]⟩).index = ["AYRB"] := by decide

/-- C1 as stated is false: `"Country_Avg_line"` is forced to fully
shown only when it is a member of the category's option list; in a
category not containing it (such as `"Regions"`), it is hidden. -/
theorem visibility_avg_unconditional_cex :
    ¬ (∀ (name : String) (opts cols : List String) (i : Nat),
        i < cols.length → cols.getD i "" = "Country_Avg_line" →
        (visibilityList name opts cols).getD i Vis.hidden = Vis.shown) := by
  intro h
  exact absurd
    (h "Regions" ["R1"] ["Country_Avg_line", "R1"] 0 (by decide) (by decide))
    (by decide)

/-- C1 (amended): in every category whose option list contains
`"Country_Avg_line"`, the visibility entry of that column is fully
shown, regardless of the category's name. -/
theorem visibility_avg_shown_of_mem (name : String) (opts cols : List String)
    (i : Nat) (hi : i < cols.length)
    (hcol : cols.getD i "" = "Country_Avg_line")
    (hmem : "Country_Avg_line" ∈ opts) :
    (visibilityList name opts cols).getD i Vis.hidden = Vis.shown := by
  rw [visibilityList_getD name opts cols i hi, hcol]
  simp [hmem]

/-- Witness for C1 (amended) at a concrete category and table. -/
theorem visibility_avg_shown_of_mem_witness :
    (visibilityList "Regions" ["Country_Avg_line"] ["Country_Avg_line", "X"]).getD
      0 Vis.hidden = Vis.shown :=
  visibility_avg_shown_of_mem "Regions" ["Country_Avg_line"]
    ["Country_Avg_line", "X"] 0 (by decide) (by decide) (by decide)

/-- C2 as stated is false: in the `"Countries"` category the claim asks
for `"Country_Avg_line"` to be fully shown for every table column equal
to it, but when `"Country_Avg_line"` is not a member of the option list,
`create_chart` hides it. -/
theorem countries_visibility_cex :
    ¬ (∀ (name : String) (opts cols : List String) (i : Nat),
        i < cols.length →
        ((name = "Countries" →
          ((cols.getD i "" ∈ opts ∧ cols.getD i "" ≠ "Country_Avg_line") →
            (visibilityList name opts cols).getD i Vis.hidden = Vis.legendonly) ∧
          (cols.getD i "" = "Country_Avg_line" →
            (visibilityList name opts cols).getD i Vis.hidden = Vis.shown) ∧
          (cols.getD i "" ∉ opts →
            (visibilityList name opts cols).getD i Vis.hidden = Vis.hidden)) ∧
         (name ≠ "Countries" →
          (cols.getD i "" ∈ opts →
            (visibilityList name opts cols).getD i Vis.hidden = Vis.shown) ∧
          (cols.getD i "" ∉ opts →
            (visibilityList name opts cols).getD i Vis.hidden = Vis.hidden)))) := by
  intro h
  have h2 :=
    ((h "Countries" ["X"] ["Country_Avg_line"] 0 (by decide)).1 rfl).2.1 (by decide)
  exact absurd h2 (by decide)

/-- C2 (amended): in the `"Countries"` category, member columns other
than `"Country_Avg_line"` are collapsed in the legend, the column
`"Country_Avg_line"` is fully shown when it is a member, and non-member
columns are hidden; in every other category, member columns are fully
shown and non-member columns are hidden. -/
theorem countries_visibility_spec (name : String) (opts cols : List String)
    (i : Nat) (hi : i < cols.length) :
    (name = "Countries" →
      ((cols.getD i "" ∈ opts ∧ cols.getD i "" ≠ "Country_Avg_line") →
        (visibilityList name opts cols).getD i Vis.hidden = Vis.legendonly) ∧
      ((cols.getD i "" = "Country_Avg_line" ∧ cols.getD i "" ∈ opts) →
        (visibilityList name opts cols).getD i Vis.hidden = Vis.shown) ∧
      (cols.getD i "" ∉ opts →
        (visibilityList name opts cols).getD i Vis.hidden = Vis.hidden)) ∧
    (name ≠ "Countries" →
      (cols.getD i "" ∈ opts →
        (visibilityList name opts cols).getD i Vis.hidden = Vis.shown) ∧
      (cols.getD i "" ∉ opts →
        (visibilityList name opts cols).getD i Vis.hidden = Vis.hidden)) := by
  rw [visibilityList_getD name opts cols i hi]
  generalize cols.getD i "" = col
  constructor
  · intro hname
    refine ⟨?_, ?_, ?_⟩
    · rintro ⟨hm, hne⟩
      simp [hm, hne, hname]
    · rintro ⟨heq, hm⟩
      subst heq
      simp [hm]
    · intro hm
      simp [hm]
  · intro hname
    refine ⟨?_, ?_⟩
    · intro hm
      by_cases heq : col = "Country_Avg_line"
      · subst heq
        simp [hm]
      · simp [hm, heq, hname]
    · intro hm
      simp [hm]

/-- Witness for C2 (amended) at a concrete option list and table. -/
theorem countries_visibility_spec_witness :
    ("Countries" = "Countries" →
      ((["Country_Avg_line", "A", "B"].getD 1 "" ∈ (["Country_Avg_line", "A"] : List String) ∧
        ["Country_Avg_line", "A", "B"].getD 1 "" ≠ "Country_Avg_line") →
        (visibilityList "Countries" ["Country_Avg_line", "A"]
          ["Country_Avg_line", "A", "B"]).getD 1 Vis.hidden = Vis.legendonly) ∧
      ((["Country_Avg_line", "A", "B"].getD 1 "" = "Country_Avg_line" ∧
        ["Country_Avg_line", "A", "B"].getD 1 "" ∈ (["Country_Avg_line", "A"] : List String)) →
        (visibilityList "Countries" ["Country_Avg_line", "A"]
          ["Country_Avg_line", "A", "B"]).getD 1 Vis.hidden = Vis.shown) ∧
      (["Country_Avg_line", "A", "B"].getD 1 "" ∉ (["Country_Avg_line", "A"] : List String) →
        (visibilityList "Countries" ["Country_Avg_line", "A"]
          ["Country_Avg_line", "A", "B"]).getD 1 Vis.hidden = Vis.hidden)) ∧
    ("Countries" ≠ "Countries" →
      (["Country_Avg_line", "A", "B"].getD 1 "" ∈ (["Country_Avg_line", "A"] : List String) →
        (visibilityList "Countries" ["Country_Avg_line", "A"]
          ["Country_Avg_line", "A", "B"]).getD 1 Vis.hidden = Vis.shown) ∧
      (["Country_Avg_line", "A", "B"].getD 1 "" ∉ (["Country_Avg_line", "A"] : List String) →
        (visibilityList "Countries" ["Country_Avg_line", "A"]
          ["Country_Avg_line", "A", "B"]).getD 1 Vis.hidden = Vis.hidden)) :=
  countries_visibility_spec "Countries" ["Country_Avg_line", "A"]
    ["Country_Avg_line", "A", "B"] 1 (by decide)

/-- C3: the `'All'` button's visibility vector has exactly one entry per
table column and every entry is `'legendonly'`. -/
theorem all_button_legendonly (filter_options : List (String × List String))
    (df : DF) :
    ((create_chart filter_options df).buttons.headD ("", [])).1 = "All" ∧
    ((create_chart filter_options df).buttons.headD ("", [])).2.length =
      df.cols.length ∧
    ∀ v ∈ ((create_chart filter_options df).buttons.headD ("", [])).2,
      v = Vis.legendonly := by
  refine ⟨rfl, ?_, ?_⟩
  · simp [create_chart, DF.colNames]
  · intro v hv
    simp only [create_chart, List.headD_cons] at hv
    obtain ⟨a, _, rfl⟩ := List.mem_map.mp hv
    rfl

/-- C4: the dropdown has one button per category plus one, and its
labels are `'All'` followed by the category names in iteration order. -/
theorem dropdown_count_and_order (filter_options : List (String × List String))
    (df : DF) :
    (create_chart filter_options df).buttons.length =
      filter_options.length + 1 ∧
    (create_chart filter_options df).buttons.map Prod.fst =
      "All" :: filter_options.map Prod.fst := by
  constructor
  · simp [create_chart]
  · simp [create_chart]

/-- C5 as stated is false: the renaming step of `preprocess_df` removes
every occurrence of `"YR"` from a column label, not only a leading one;
on a table with the single column `"AYRB"` the code produces the row
label `"AB"` after transposing, while the claimed pipeline keeps
`"AYRB"`. -/
theorem preprocess_strip_leading_cex :
    ¬ (∀ df : DF, preprocess_df df = preprocessC5Claim df) := by
  intro h
  exact absurd (congrArg DF.index (h ⟨["r1"], [("AYRB", [some 1])]⟩)) (by decide)

/-- C5 (amended): `preprocess_df` is exactly the five-step pipeline
drop all-null columns, then drop all-null rows, then remove every
occurrence of `"YR"` from column labels, then round to one decimal
place, then transpose. -/
theorem preprocess_pipeline_order (df : DF) :
    preprocess_df df = preprocessC5Amended df := rfl

/-- C6: given a table with at least one all-null column, the column
drop of `preprocess_df` removes every all-null column, keeps every
column with a non-null cell, and introduces no column. -/
theorem drop_all_null_cols_exact (df : DF)
    (h : ∃ c ∈ df.cols, ∀ x ∈ c.2, x = none) :
    (∀ c ∈ df.cols, (∀ x ∈ c.2, x = none) → c ∉ (dropColsAllNull df).cols) ∧
    (∀ c ∈ df.cols, (∃ x ∈ c.2, x ≠ none) → c ∈ (dropColsAllNull df).cols) ∧
    (∀ c ∈ (dropColsAllNull df).cols, c ∈ df.cols) := by
  refine ⟨?_, ?_, ?_⟩
  · intro c _ hall hmem
    rw [dropColsAllNull] at hmem
    obtain ⟨-, hany⟩ := List.mem_filter.mp hmem
    obtain ⟨x, hx, hxs⟩ := List.any_eq_true.mp hany
    rw [hall x hx] at hxs
    exact absurd hxs (by decide)
  · intro c hc hx
    obtain ⟨x, hx, hxne⟩ := hx
    rw [dropColsAllNull]
    refine List.mem_filter.mpr ⟨hc, List.any_eq_true.mpr ⟨x, hx, ?_⟩⟩
    exact Option.isSome_iff_ne_none.mpr hxne
  · intro c hc
    rw [dropColsAllNull] at hc
    exact (List.mem_filter.mp hc).1

/-- Witness for C6 on a table with one all-null and one non-null
column. -/
theorem drop_all_null_cols_exact_witness :
    (∀ c ∈ ([("a", [some (1:ℚ)]), ("b", [none])] : List (String × List (Option ℚ))),
      (∀ x ∈ c.2, x = none) →
      c ∉ (dropColsAllNull ⟨["r1"], [("a", [some 1]), ("b", [none])]⟩).cols) ∧
    (∀ c ∈ ([("a", [some (1:ℚ)]), ("b", [none])] : List (String × List (Option ℚ))),
      (∃ x ∈ c.2, x ≠ none) →
      c ∈ (dropColsAllNull ⟨["r1"], [("a", [some 1]), ("b", [none])]⟩).cols) ∧
    (∀ c ∈ (dropColsAllNull ⟨["r1"], [("a", [some 1]), ("b", [none])]⟩).cols,
      c ∈ ([("a", [some (1:ℚ)]), ("b", [none])] : List (String × List (Option ℚ)))) :=
  drop_all_null_cols_exact ⟨["r1"], [("a", [some 1]), ("b", [none])]⟩
    ⟨("b", [none]), by decide, by decide⟩

/-- Taking up to the first index satisfying a predicate is taking while
the predicate fails. -/
theorem take_findIdx_eq_takeWhile (p : String → Bool) (l : List String) :
    l.take (l.findIdx p) = l.takeWhile (fun a => !(p a)) := by
  induction l with
  | nil => rfl
  | cons a l ih =>
    rw [List.findIdx_cons, List.takeWhile_cons]
    by_cases hpa : p a
    · simp [hpa]
    · simp only [Bool.not_eq_true] at hpa
      simp [hpa, List.take_succ_cons, ih]

/-- C7: the country list of `main` is the alphabetically sorted list of
the column labels strictly before the first `"World"` column, and the
new average column's value at each row is the mean over the cells of
exactly those columns. -/
theorem country_avg_exact (df : DF) (h : "World" ∈ df.colNames) :
    mainCountries df =
      sortStr (df.colNames.takeWhile (fun c => c ≠ "World")) ∧
    ∀ i, i < df.index.length →
      (avgCells df).getD i none =
        rowMean ((mainCountries df).map
          (fun n => (lookupCol df n).getD i none)) := by
  constructor
  · rw [mainCountries, take_findIdx_eq_takeWhile]
    have hp : (fun a => !(decide (a = "World"))) =
        fun c : String => decide (c ≠ "World") := by
      funext a
      rw [decide_not]
    rw [hp]
  · intro i hi
    have hlen : i < (rowMeans (selectCols df (mainCountries df))).length := by
      simpa [rowMeans, selectCols] using hi
    rw [avgCells, List.getD_eq_getElem _ _ hlen]
    simp [rowMeans, selectCols, List.map_map, Function.comp_def]

/-- Witness for C7 on a small reshaped table with a `"World"` column. -/
theorem country_avg_exact_witness :
    (mainCountries ⟨["2000"], [("B", [some 1]), ("A", [some 2]),
        ("World", [some 3]), ("R", [some 4])]⟩ =
      sortStr ((DF.colNames ⟨["2000"], [("B", [some 1]), ("A", [some 2]),
        ("World", [some 3]), ("R", [some 4])]⟩).takeWhile
          (fun c => c ≠ "World")) ∧
    ∀ i, i < (DF.index ⟨["2000"], [("B", [some 1]), ("A", [some 2]),
        ("World", [some 3]), ("R", [some 4])]⟩).length →
      (avgCells ⟨["2000"], [("B", [some 1]), ("A", [some 2]),
        ("World", [some 3]), ("R", [some 4])]⟩).getD i none =
        rowMean ((mainCountries ⟨["2000"], [("B", [some 1]), ("A", [some 2]),
            ("World", [some 3]), ("R", [some 4])]⟩).map
          (fun n => (lookupCol ⟨["2000"], [("B", [some 1]), ("A", [some 2]),
            ("World", [some 3]), ("R", [some 4])]⟩ n).getD i none))) :=
  country_avg_exact ⟨["2000"], [("B", [some 1]), ("A", [some 2]),
    ("World", [some 3]), ("R", [some 4])]⟩ (by decide)

/-- C8: when the reshaped table has no `"World"` column, `main` raises
the unhandled `ValueError` from `list.index` and therefore never builds
a chart or writes `visual.html`. -/
theorem missing_world_terminates (raw : DF)
    (h : "World" ∉ (preprocess_df raw).colNames) :
    mainResult raw = Except.error MainErr.valueError := by
  have hnone : (preprocess_df raw).colNames.findIdx? (fun c => c = "World") =
      none := by
    rw [List.findIdx?_eq_none_iff]
    intro x hx
    by_cases hxw : x = "World"
    · exact absurd (hxw ▸ hx) h
    · simp [hxw]
  rw [mainResult]
  rw [hnone]

/-- Witness for C8 on the empty fetch result. -/
theorem missing_world_terminates_witness :
    mainResult ⟨[], []⟩ = Except.error MainErr.valueError :=
  missing_world_terminates ⟨[], []⟩ (by decide)

/-- Selecting named columns yields exactly the requested labels, in the
requested order. -/
theorem selectCols_colNames (df : DF) (names : List String) :
    (selectCols df names).colNames = names := by
  simp [selectCols, DF.colNames, List.map_map, Function.comp_def]

/-- No region label is an income-group label or the average label. -/
theorem region_labels_disjoint :
    ∀ c ∈ region_grps, c ∉ income_grps ∧ c ≠ "Country_Avg_line" := by decide

/-- No income-group label is a region label or the average label. -/
theorem income_labels_disjoint :
    ∀ c ∈ income_grps, c ∉ region_grps ∧ c ≠ "Country_Avg_line" := by decide

/-- C10: the final table's columns are exactly `"Country_Avg_line"`,
then the sorted country labels, then the regions, then the income
groups; provided the country labels avoid the fixed labels, every final
column lies in exactly one filter category, the average column lies
only in `"Countries"`, and no other column survives into the final
table. -/
theorem final_table_partition (df : DF)
    (h2 : ∀ c ∈ mainCountries df,
      c ∉ region_grps ∧ c ∉ income_grps ∧ c ≠ "Country_Avg_line") :
    (finalTable df).colNames =
      ("Country_Avg_line" :: mainCountries df) ++ region_grps ++ income_grps ∧
    (∀ c ∈ (finalTable df).colNames,
      ((mainFilterOptions ("Country_Avg_line" :: mainCountries df)).filter
        (fun p => c ∈ p.2)).length = 1) ∧
    ("Country_Avg_line" ∈ ("Country_Avg_line" :: mainCountries df) ∧
     "Country_Avg_line" ∉ region_grps ∧ "Country_Avg_line" ∉ income_grps) ∧
    (∀ c, c ∉ mainAllCols df → c ∉ (finalTable df).colNames) := by
  have hcols : (finalTable df).colNames = mainAllCols df :=
    selectCols_colNames _ _
  refine ⟨hcols, ?_, ⟨List.mem_cons_self _ _, by decide, by decide⟩, ?_⟩
  · intro c hc
    rw [hcols, mainAllCols] at hc
    rcases List.mem_append.mp hc with hc' | hinc
    · rcases List.mem_append.mp hc' with hcs | hreg
      · rcases List.mem_cons.mp hcs with rfl | hmc
        · have hnr : "Country_Avg_line" ∉ region_grps := by decide
          have hni : "Country_Avg_line" ∉ income_grps := by decide
          simp [mainFilterOptions, List.filter_cons, hcs, hnr, hni]
        · obtain ⟨hnr, hni, -⟩ := h2 c hmc
          have hcs2 : c ∈ "Country_Avg_line" :: mainCountries df :=
            List.mem_cons_of_mem _ hmc
          simp [mainFilterOptions, List.filter_cons, hcs2, hnr, hni]
      · obtain ⟨hni, hne⟩ := region_labels_disjoint c hreg
        have hncs : c ∉ "Country_Avg_line" :: mainCountries df := by
          intro hmem
          rcases List.mem_cons.mp hmem with rfl | hmc
          · exact hne rfl
          · exact (h2 c hmc).1 hreg
        simp [mainFilterOptions, List.filter_cons, hreg, hni, hncs]
    · obtain ⟨hnr, hne⟩ := income_labels_disjoint c hinc
      have hncs : c ∉ "Country_Avg_line" :: mainCountries df := by
        intro hmem
        rcases List.mem_cons.mp hmem with rfl | hmc
        · exact hne rfl
        · exact (h2 c hmc).2.1 hinc
      simp [mainFilterOptions, List.filter_cons, hinc, hnr, hncs]
  · intro c hc hmem
    rw [hcols] at hmem
    exact hc hmem

/-- Witness for C10 on a small reshaped table. -/
theorem final_table_partition_witness :
    (finalTable ⟨["2000"], [("A", [some 1]), ("World", [some 2])]⟩).colNames =
      ("Country_Avg_line" ::
        mainCountries ⟨["2000"], [("A", [some 1]), ("World", [some 2])]⟩) ++
        region_grps ++ income_grps ∧
    (∀ c ∈ (finalTable ⟨["2000"],
        [("A", [some 1]), ("World", [some 2])]⟩).colNames,
      ((mainFilterOptions ("Country_Avg_line" ::
          mainCountries ⟨["2000"], [("A", [some 1]), ("World", [some 2])]⟩)).filter
        (fun p => c ∈ p.2)).length = 1) ∧
    ("Country_Avg_line" ∈ ("Country_Avg_line" ::
        mainCountries ⟨["2000"], [("A", [some 1]), ("World", [some 2])]⟩) ∧
     "Country_Avg_line" ∉ region_grps ∧ "Country_Avg_line" ∉ income_grps) ∧
    (∀ c, c ∉ mainAllCols ⟨["2000"], [("A", [some 1]), ("World", [some 2])]⟩ →
      c ∉ (finalTable ⟨["2000"],
        [("A", [some 1]), ("World", [some 2])]⟩).colNames) :=
  final_table_partition ⟨["2000"], [("A", [some 1]), ("World", [some 2])]⟩
    (by decide)

/-- C9: rounding to one decimal place is idempotent; rounding a value
that is already a multiple of one tenth returns it unchanged, so a
second application of the rounding step changes nothing. -/
theorem round1_idempotent (q : ℚ) : round1 (round1 q) = round1 q := by
  unfold round1
  rw [show (10 : ℚ) * ((rhalfEven (10 * q) : ℚ) / 10) =
      (rhalfEven (10 * q) : ℚ) by ring]
  rw [rhalfEven_intCast]
